import Mathlib

/-
Verification development for the trajectory-synthesis engine of the
Interstellar Signature repository.  The definitions below are shallow
embeddings of the frontend source: the orbital propagation math of
ThreeJSViewer (orbitalToCartesian, Planet, Trajectory, Scene), the
energy charts of ComparisonCharts, and the animation clock of App.tsx.
Floating point numbers are modelled by real numbers; JS arrays by lists;
JS records keyed by body name by association lists that keep insertion
order.
-/

namespace ISig

/- ===== Kepler solver =====
Embedded from orbitalToCartesian: the loop
  let E = M_rad; for 10 times do E = M_rad + eccentricity * sin E. -/

noncomputable def keplerStep (e M E : ℝ) : ℝ := M + e * Real.sin E

noncomputable def keplerIter (e M : ℝ) : Nat → ℝ
  | 0 => M
  | n + 1 => keplerStep e M (keplerIter e M n)

noncomputable def solveKeplerE (e M : ℝ) : ℝ := keplerIter e M 10

/- ===== Mean anomaly =====
Embedded from orbitalToCartesian:
  n = 360 / orbitalPeriod;  M = (meanAnomaly + n * time) % 360
where % is the JS remainder operator, which truncates the quotient
toward zero (so the result keeps the sign of the dividend). -/

noncomputable def jsTrunc (x : ℝ) : ℤ := if 0 ≤ x then ⌊x⌋ else ⌈x⌉

noncomputable def jsMod (a b : ℝ) : ℝ := a - b * (jsTrunc (a / b) : ℝ)

noncomputable def meanMotion (P : ℝ) : ℝ := 360 / P

noncomputable def meanAnomalyDeg (M0 P t : ℝ) : ℝ := jsMod (M0 + meanMotion P * t) 360

/- ===== Frame conversion =====
Embedded from the render conversions: new THREE.Vector3(x, z, -y),
applied to propagated positions and to ephemeris samples alike. -/

structure Vec3 where
  x : ℝ
  y : ℝ
  z : ℝ

theorem Vec3.ext_iff_mk (a b : Vec3) (hx : a.x = b.x) (hy : a.y = b.y) (hz : a.z = b.z) :
    a = b := by
  cases a; cases b; simp_all

def toRenderFrame (v : Vec3) : Vec3 := ⟨v.x, v.z, -v.y⟩

/-- Modelled from the spec: the source only contains the forward conversion
to the render frame; section 4.3 of the spec declares fromRenderFrame as
the exact inverse of toRenderFrame, mapping (x, y, z) to (x, -z, y). -/
def fromRenderFrame (v : Vec3) : Vec3 := ⟨v.x, -v.z, v.y⟩

/- ===== Energy classification =====
Embedded from ComparisonCharts:
  MU_SUN = 2.9591220828559093e-4
  velocity = sqrt(vx^2 + vy^2 + vz^2)
  energy   = velocity^2 / 2 - MU_SUN / r
and the chart formatter branch
  value > 0 : Unbound, value < 0 : Bound, otherwise Parabolic. -/

noncomputable def MU_SUN : ℝ := 29591220828559093 / 10 ^ 20

noncomputable def velocityMag (vx vy vz : ℝ) : ℝ := Real.sqrt (vx ^ 2 + vy ^ 2 + vz ^ 2)

noncomputable def specificEnergy (vx vy vz r : ℝ) : ℝ :=
  velocityMag vx vy vz ^ 2 / 2 - MU_SUN / r

inductive OrbitClass
  | unbound
  | parabolic
  | bound
  deriving DecidableEq

noncomputable def classifyEnergy (eps : ℝ) : OrbitClass :=
  if 0 < eps then OrbitClass.unbound
  else if eps < 0 then OrbitClass.bound
  else OrbitClass.parabolic

inductive EnergyError
  | degenerateDistance
  deriving DecidableEq

/-- Outcome of the energy computation in the source: the code computes the
energy unconditionally, with no check on r, so the outcome is always a
value and never an error. -/
noncomputable def energyResult (vx vy vz r : ℝ) : Except EnergyError ℝ :=
  Except.ok (specificEnergy vx vy vz r)

/-- Modelled from the spec: the source has no error handling around the
energy formulas; sections 4.5 and 7 of the spec require the computation to
fail with DegenerateDistance when r is not positive, and to return the
energy otherwise. -/
noncomputable def energyResultSpec (vx vy vz r : ℝ) : Except EnergyError ℝ :=
  if r ≤ 0 then Except.error EnergyError.degenerateDistance
  else Except.ok (specificEnergy vx vy vz r)

/- ===== Animation clock =====
Embedded from the playback effect in App.tsx:
  setCurrentTimestep(prev =>
    if prev >= maxTimesteps - 1 then setIsPlaying(false); return 0
    else return prev + 1). -/

structure ClockState where
  current : Int
  playing : Bool
  deriving DecidableEq

def advanceClock (N : Int) (s : ClockState) : ClockState :=
  if N - 1 ≤ s.current then ⟨0, false⟩ else ⟨s.current + 1, s.playing⟩

/- ===== Timeline lookup =====
Embedded from the Planet component
  ephemerisData[Math.min(currentTimestep, ephemerisData.length - 1)]
and the Trajectory component
  points[currentTimestep] || points[0] || fallback
along with maxLength = Math.max over the per-body lengths from
ComparisonCharts. -/

def planetSample {α : Type*} (eph : List α) (t : Nat) : Option α :=
  eph[min t (eph.length - 1)]?

def trajSample {α : Type*} (points : List α) (d : α) (t : Nat) : α :=
  match points[t]? with
  | some v => v
  | none =>
    match points[0]? with
    | some v => v
    | none => d

def maxLen {α : Type*} (ls : List (List α)) : Nat :=
  (ls.map List.length).foldr max 0

/- ===== Downsampling =====
Embedded from the Scene component:
  Object.entries(trajectoryData).forEach(([objectName, data]) =>
    if (!data || data.length === 0) result[objectName] = []
    else if (!animationMode && data.length > maxTrajectoryPoints)
      step = Math.ceil(data.length / maxTrajectoryPoints)
      result[objectName] = data.filter((_, i) => i % step === 0)
    else result[objectName] = data).
filterIdx models Array.filter with its index callback. -/

def ceilDiv (L K : Nat) : Nat := (L + K - 1) / K

def filterIdx {α : Type*} (p : Nat → Bool) : List α → Nat → List α
  | [], _ => []
  | x :: xs, i => if p i then x :: filterIdx p xs (i + 1) else filterIdx p xs (i + 1)

def strideFilter {α : Type*} (data : List α) (s : Nat) : List α :=
  filterIdx (fun i => i % s == 0) data 0

def throttleBody {α : Type*} (am : Bool) (K : Nat) (data : List α) : List α :=
  if data.length = 0 then []
  else if am = false ∧ K < data.length then strideFilter data (ceilDiv data.length K)
  else data

def throttleEntry {α : Type*} (am : Bool) (K : Nat) (d : Option (List α)) : List α :=
  match d with
  | none => []
  | some data => throttleBody am K data

def throttleAll {α : Type*} (am : Bool) (K : Nat)
    (m : List (String × Option (List α))) : List (String × List α) :=
  m.map (fun nd => (nd.1, throttleEntry am K nd.2))

/- ===== Helper lemmas about the index filter ===== -/

theorem filterIdx_sublist {α : Type*} (p : Nat → Bool) (l : List α) (i : Nat) :
    (filterIdx p l i).Sublist l := by
  induction l generalizing i with
  | nil => simp [filterIdx]
  | cons x xs ih =>
    simp only [filterIdx]
    split
    · exact (ih (i + 1)).cons₂ x
    · exact (ih (i + 1)).cons x

theorem filterIdx_mod_shift {α : Type*} (s : Nat) (l : List α) (i : Nat) :
    filterIdx (fun j => j % s == 0) l (i + s) = filterIdx (fun j => j % s == 0) l i := by
  induction l generalizing i with
  | nil => rfl
  | cons x xs ih =>
    simp only [filterIdx, Nat.add_mod_right]
    rw [show i + s + 1 = (i + 1) + s by omega, ih (i + 1)]

theorem filterIdx_mod_skip {α : Type*} (s : Nat) (l : List α) (j : Nat)
    (h0 : 0 < j) (hs : j ≤ s) :
    filterIdx (fun i => i % s == 0) l j
      = filterIdx (fun i => i % s == 0) (l.drop (s - j)) s := by
  induction l generalizing j with
  | nil => simp [filterIdx]
  | cons x xs ih =>
    rcases Nat.lt_or_ge j s with hlt | hge
    · have hmod : j % s = j := Nat.mod_eq_of_lt hlt
      simp only [filterIdx]
      rw [if_neg (by simp [hmod]; omega)]
      rw [show s - j = (s - (j + 1)) + 1 by omega, List.drop_succ_cons]
      exact ih (j + 1) (by omega) (by omega)
    · have hje : j = s := by omega
      rw [hje, show s - s = 0 by omega, List.drop_zero]

theorem strideFilter_cons {α : Type*} (s : Nat) (hs : 0 < s) (x : α) (xs : List α) :
    strideFilter (x :: xs) s = x :: strideFilter (xs.drop (s - 1)) s := by
  unfold strideFilter
  simp only [filterIdx]
  rw [if_pos (by simp)]
  rw [filterIdx_mod_skip s xs 1 one_pos hs]
  have h := filterIdx_mod_shift s (xs.drop (s - 1)) 0
  rw [show 0 + s = s by omega] at h
  rw [h]

theorem strideFilter_getElem {α : Type*} (s : Nat) (hs : 0 < s) :
    ∀ (n : Nat) (data : List α), data.length ≤ n → ∀ j : Nat,
      (strideFilter data s)[j]? = data[j * s]? := by
  intro n
  induction n with
  | zero =>
    intro data hlen j
    have hd : data = [] := List.eq_nil_of_length_eq_zero (by omega)
    subst hd
    simp [strideFilter, filterIdx]
  | succ n ih =>
    intro data hlen j
    cases data with
    | nil => simp [strideFilter, filterIdx]
    | cons x xs =>
      rw [strideFilter_cons s hs]
      cases j with
      | zero => simp
      | succ j =>
        rw [List.getElem?_cons_succ]
        rw [ih (xs.drop (s - 1)) (by simp only [List.length_drop]; simp at hlen; omega) j]
        rw [List.getElem?_drop]
        have harith : ∀ m : Nat, 1 ≤ s → m + s = ((s - 1) + m) + 1 := by
          intro m h
          omega
        rw [Nat.succ_mul, harith (j * s) hs, List.getElem?_cons_succ]

/- ===== Claim theorems ===== -/

/-- Claim C1, counterexample.  The claim states that every lookup clamps to
the last available entry, so that a body with 10 samples read at timestep
10 of a 25-step merged timeline yields its sample at index 9.  The
interstellar Trajectory lookup in the source falls back to the first entry
instead: on the 10-sample list of values 0..9 read at timestep 10 it
yields the sample at index 0, not the sample 9 at index 9. -/
theorem claim_C1_counterexample :
    maxLen [List.range 10, List.range 25] = 25
    ∧ trajSample (List.range 10) 999 10 = 0
    ∧ ¬ trajSample (List.range 10) 999 10 = 9 := by
  refine ⟨by decide, by decide, by decide⟩

/-- Claim C1, amended.  In a merged timeline of length N = max trajectory
length, an in-range timestep reads the indexed entry in both lookup paths;
beyond the end of a body, the Planet ephemeris lookup clamps to the last
available entry (so with lengths 10 and 25, N = 25 and the Planet path
reads index 9 at timesteps 10..24), while the interstellar Trajectory
lookup falls back to the first entry (index 0) instead of the last. -/
theorem claim_C1_amended (α : Type) :
    (∀ (eph : List α) (t : Nat), t < eph.length → planetSample eph t = eph[t]?)
    ∧ (∀ (eph : List α) (t : Nat), eph.length ≤ t →
        planetSample eph t = eph[eph.length - 1]?)
    ∧ (∀ (points : List α) (d : α) (t : Nat), t < points.length →
        some (trajSample points d t) = points[t]?)
    ∧ (∀ (points : List α) (d : α) (t : Nat), points.length ≤ t →
        trajSample points d t = (points[0]?).getD d)
    ∧ maxLen [List.range 10, List.range 25] = 25
    ∧ (∀ t : Nat, 10 ≤ t → planetSample (List.range 10) t = some 9) := by
  refine ⟨?_, ?_, ?_, ?_, by decide, ?_⟩
  · intro eph t ht
    unfold planetSample
    rw [Nat.min_eq_left (by omega)]
  · intro eph t ht
    unfold planetSample
    rw [Nat.min_eq_right (by omega)]
  · intro points d t ht
    unfold trajSample
    rw [List.getElem?_eq_getElem ht]
  · intro points d t ht
    unfold trajSample
    rw [List.getElem?_eq_none ht]
    cases h0 : points[0]? <;> simp [h0]
  · intro t ht
    unfold planetSample
    rw [Nat.min_eq_right (by simp; omega)]
    decide

/-- Claim C1 witness: the Planet lookup on the 2-entry list read at
timestep 5 clamps to the last entry. -/
theorem claim_C1_witness : planetSample ([3, 7] : List Nat) 5 = some 7 := by
  have h := (claim_C1_amended Nat).2.1 [3, 7] 5 (by decide)
  simpa using h

/-- Claim C2, counterexample.  The claim states the last sample is retained
only when the length is an exact multiple of the stride.  For length 7 and
budget 3 the stride is ceil(7/3) = 3, the result keeps indices 0, 3, 6 and
so retains the last sample although 7 is not a multiple of 3. -/
theorem claim_C2_counterexample :
    ceilDiv 7 3 = 3
    ∧ throttleBody false 3 (List.range 7) = [0, 3, 6]
    ∧ (List.range 7).getLast? = some 6
    ∧ 6 ∈ throttleBody false 3 (List.range 7)
    ∧ ¬ 7 % 3 = 0 := by
  refine ⟨by decide, by decide, by decide, by decide, by decide⟩

/-- Claim C2, amended.  When the length L exceeds the budget K, the
downsampling keeps exactly the samples at indices that are multiples of
the stride ceil(L/K) (the j-th kept sample is the original sample at index
j times the stride), so the first sample is always retained; for L = 1000
and K = 200 the stride is 5 and the result has exactly 200 points whose
first point is original index 0; the last sample is retained at result
position (L-1)/stride exactly when (L-1) is a multiple of the stride (not
when L itself is). -/
theorem claim_C2_amended (α : Type) (K : Nat) (data : List α) (hK : 0 < K)
    (hL : K < data.length) :
    (∀ j : Nat, (throttleBody false K data)[j]? = data[j * ceilDiv data.length K]?)
    ∧ (throttleBody false K data)[0]? = data[0]?
    ∧ (data.length = 1000 → K = 200 →
        ceilDiv data.length K = 5
        ∧ (throttleBody false K data).length = 200
        ∧ (throttleBody false K data)[0]? = data[0]?)
    ∧ ((data.length - 1) % ceilDiv data.length K = 0 →
        (throttleBody false K data)[(data.length - 1) / ceilDiv data.length K]?
          = data[data.length - 1]?) := by
  have hs : 0 < ceilDiv data.length K := Nat.div_pos (by omega) (by omega)
  have hbody : throttleBody false K data = strideFilter data (ceilDiv data.length K) := by
    unfold throttleBody
    rw [if_neg (by omega), if_pos ⟨rfl, hL⟩]
  have hget : ∀ j : Nat,
      (throttleBody false K data)[j]? = data[j * ceilDiv data.length K]? := by
    intro j
    rw [hbody]
    exact strideFilter_getElem (ceilDiv data.length K) hs data.length data le_rfl j
  refine ⟨hget, ?_, ?_, ?_⟩
  · have h := hget 0
    simpa using h
  · intro h1000 h200
    have hcd : ceilDiv data.length K = 5 := by
      rw [h1000, h200]
      decide
    refine ⟨hcd, ?_, by simpa using hget 0⟩
    have h199 : (throttleBody false K data)[199]? = some data[199 * 5] := by
      rw [hget 199, hcd]
      exact List.getElem?_eq_getElem (by omega)
    have h200g : (throttleBody false K data)[200]? = none := by
      rw [hget 200, hcd]
      exact List.getElem?_eq_none (by omega)
    have hlow : 199 < (throttleBody false K data).length := by
      by_contra hc
      rw [List.getElem?_eq_none (by omega)] at h199
      exact Option.noConfusion h199
    have hhigh : (throttleBody false K data).length ≤ 200 := by
      by_contra hc
      rw [List.getElem?_eq_getElem (by omega)] at h200g
      exact Option.noConfusion h200g
    omega
  · intro hmod
    have h := hget ((data.length - 1) / ceilDiv data.length K)
    rwa [Nat.div_mul_cancel (Nat.dvd_of_mod_eq_zero hmod)] at h

/-- Claim C2 witness: downsampling a 1000-point trajectory to budget 200
produces exactly 200 points. -/
theorem claim_C2_witness : (throttleBody false 200 (List.range 1000)).length = 200 := by
  have h := (claim_C2_amended Nat 200 (List.range 1000) (by norm_num)
      (by simp)).2.2.1 (by simp) rfl
  exact h.2.1

/-- Claim C10: the per-body downsampling step is total and key-preserving.
The output keeps exactly the input body names in the input order, a
missing or empty trajectory is carried through as the empty trajectory,
and every output trajectory is a sublist of the same body input (no
cross-body mixing). -/
theorem claim_C10 (α : Type) (am : Bool) (K : Nat)
    (m : List (String × Option (List α))) :
    (throttleAll am K m).map Prod.fst = m.map Prod.fst
    ∧ (∀ d : Option (List α), (throttleEntry am K d).Sublist (d.getD []))
    ∧ throttleEntry am K (none : Option (List α)) = []
    ∧ (∀ data : List α, data.length = 0 → throttleEntry am K (some data) = [])
    ∧ (∀ (i : Nat) (nd : String × Option (List α)), m[i]? = some nd →
        (throttleAll am K m)[i]? = some (nd.1, throttleEntry am K nd.2)) := by
  refine ⟨?_, ?_, rfl, ?_, ?_⟩
  · simp [throttleAll]
  · intro d
    cases d with
    | none => simp [throttleEntry]
    | some data =>
      show (throttleBody am K data).Sublist data
      unfold throttleBody
      split
      · exact List.nil_sublist data
      · split
        · exact filterIdx_sublist _ data 0
        · exact List.Sublist.refl data
  · intro data h
    simp [throttleEntry, throttleBody, h]
  · intro i nd h
    simp [throttleAll, List.getElem?_map, h]

/-- Claim C10 witness: the downsampling step on a one-body map produces
the entry for that body at index 0. -/
theorem claim_C10_witness :
    (throttleAll false 2 [("A", some ([5, 6, 7] : List Nat))])[0]?
      = some ("A", throttleEntry false 2 (some [5, 6, 7])) :=
  (claim_C10 Nat false 2 [("A", some [5, 6, 7])]).2.2.2.2 0 ("A", some [5, 6, 7]) rfl

/-- Claim C3: for eccentricity in [0, 1) and any mean anomaly, the Kepler
solver output is exactly the 10-fold iterate of the fixed-point map
E maps to M + e * sin E seeded at M, with no convergence check or early
exit, so identical inputs reproduce identical output. -/
theorem claim_C3 (e M : ℝ) (h0 : 0 ≤ e) (h1 : e < 1) :
    solveKeplerE e M = (fun E => M + e * Real.sin E)^[10] M := by
  have key : ∀ n : Nat, keplerIter e M n = (fun E => M + e * Real.sin E)^[n] M := by
    intro n
    induction n with
    | zero => rfl
    | succ n ih =>
      rw [Function.iterate_succ_apply', ← ih]
      rfl
  exact key 10

/-- Claim C3 witness: the solver at eccentricity 0 and mean anomaly 0
equals the 10-fold iterate there. -/
theorem claim_C3_witness :
    solveKeplerE 0 0 = (fun E => 0 + 0 * Real.sin E)^[10] 0 :=
  claim_C3 0 0 le_rfl zero_lt_one

/-- Claim C5, counterexample.  The claim states the propagated mean anomaly
lies in [0, 360) for every real time, including negative times.  With
M0 = 100, P = 360 and t = -200 the JS remainder yields -100, which is not
in [0, 360). -/
theorem claim_C5_counterexample :
    (0 : ℝ) < 360
    ∧ meanAnomalyDeg 100 360 (-200) = -100
    ∧ ¬ 0 ≤ meanAnomalyDeg 100 360 (-200) := by
  have harg : (100 : ℝ) + meanMotion 360 * (-200) = -100 := by
    unfold meanMotion
    norm_num
  have hval : meanAnomalyDeg 100 360 (-200) = -100 := by
    unfold meanAnomalyDeg
    rw [harg]
    unfold jsMod jsTrunc
    rw [if_neg (by norm_num)]
    have hc : ⌈(-100 : ℝ) / 360⌉ = 0 := by norm_num [Int.ceil_eq_iff]
    rw [hc]
    norm_num
  exact ⟨by norm_num, hval, by rw [hval]; norm_num⟩

/-- Claim C5, amended.  The JS remainder truncates toward zero, so the
mean anomaly (M0 + n t) % 360 is normalized into [0, 360) exactly when the
un-normalized angle M0 + n t is nonnegative; for negative angles the code
returns a negative representative instead. -/
theorem claim_C5_amended (M0 P t : ℝ) (hP : 0 < P)
    (hnn : 0 ≤ M0 + meanMotion P * t) :
    0 ≤ meanAnomalyDeg M0 P t ∧ meanAnomalyDeg M0 P t < 360 := by
  set a := M0 + meanMotion P * t with ha
  have hdiv : 0 ≤ a / 360 := div_nonneg hnn (by norm_num)
  have htr : jsTrunc (a / 360) = ⌊a / 360⌋ := if_pos hdiv
  have hfr : meanAnomalyDeg M0 P t = 360 * Int.fract (a / 360) := by
    unfold meanAnomalyDeg jsMod
    rw [← ha, htr, Int.fract]
    ring
  constructor
  · rw [hfr]
    exact mul_nonneg (by norm_num) (Int.fract_nonneg _)
  · rw [hfr]
    exact mul_lt_of_lt_one_right (by norm_num) (Int.fract_lt_one _)

/-- Claim C5 witness: with M0 = 100, P = 360, t = 0 the mean anomaly lies
in [0, 360). -/
theorem claim_C5_witness :
    0 ≤ meanAnomalyDeg 100 360 0 ∧ meanAnomalyDeg 100 360 0 < 360 :=
  claim_C5_amended 100 360 0 (by norm_num) (by norm_num [meanMotion])

/-- Claim C6: the specific orbital energy is v squared over 2 minus
MU_SUN / r with v the velocity magnitude and MU_SUN the stated solar
gravitational parameter; classification is the three-way sign branch
(positive: unbound, negative: bound, zero: parabolic); the sample with
v = 0.05 AU/day at r = 5 AU has energy about 0.00119, positive, and is
classified unbound. -/
theorem claim_C6 :
    (∀ vx vy vz r : ℝ,
      specificEnergy vx vy vz r = (vx ^ 2 + vy ^ 2 + vz ^ 2) / 2 - MU_SUN / r)
    ∧ MU_SUN = 29591220828559093 / 10 ^ 20
    ∧ (∀ eps : ℝ, 0 < eps → classifyEnergy eps = OrbitClass.unbound)
    ∧ (∀ eps : ℝ, eps < 0 → classifyEnergy eps = OrbitClass.bound)
    ∧ classifyEnergy 0 = OrbitClass.parabolic
    ∧ 0 < specificEnergy (1 / 20) 0 0 5
    ∧ classifyEnergy (specificEnergy (1 / 20) 0 0 5) = OrbitClass.unbound
    ∧ |specificEnergy (1 / 20) 0 0 5 - 119 / 100000| < 1 / 100000 := by
  have hform : ∀ vx vy vz r : ℝ,
      specificEnergy vx vy vz r = (vx ^ 2 + vy ^ 2 + vz ^ 2) / 2 - MU_SUN / r := by
    intro vx vy vz r
    unfold specificEnergy velocityMag
    rw [Real.sq_sqrt (by positivity)]
  have hval : specificEnergy (1 / 20 : ℝ) 0 0 5 = 1 / 800 - MU_SUN / 5 := by
    rw [hform]
    norm_num
  have hpos : 0 < specificEnergy (1 / 20 : ℝ) 0 0 5 := by
    rw [hval]
    unfold MU_SUN
    norm_num
  have hun : ∀ eps : ℝ, 0 < eps → classifyEnergy eps = OrbitClass.unbound := by
    intro eps h
    unfold classifyEnergy
    rw [if_pos h]
  refine ⟨hform, rfl, hun, ?_, ?_, hpos, hun _ hpos, ?_⟩
  · intro eps h
    unfold classifyEnergy
    rw [if_neg (by linarith), if_pos h]
  · unfold classifyEnergy
    norm_num
  · rw [hval]
    unfold MU_SUN
    rw [abs_lt]
    constructor <;> norm_num

/-- Claim C6 witness: a positive energy value is classified unbound. -/
theorem claim_C6_witness : classifyEnergy 1 = OrbitClass.unbound :=
  claim_C6.2.2.1 1 one_pos

/-- Claim C7, counterexample.  The claim states the clock keeps looping
(replay) rather than stopping playback at the wrap.  In the source, the
wrap branch also sets isPlaying to false: stepping from index 4 with 5
timesteps returns index 0 with playing false, so playback stops. -/
theorem claim_C7_counterexample :
    advanceClock 5 ⟨4, true⟩ = ⟨0, false⟩
    ∧ ¬ (advanceClock 5 ⟨4, true⟩).playing = true := by
  refine ⟨by decide, by decide⟩

/-- Claim C7, amended.  One step of the clock advances the index by
exactly 1 while current + 1 < N (never skipping, regardless of the speed
multiplier, which only changes the scheduler interval); when
current + 1 is at least N the index wraps to 0 (no clamping) and the step
additionally sets playing to false, pausing playback until restarted. -/
theorem claim_C7_amended (N : Int) (s : ClockState) :
    (s.current + 1 < N → advanceClock N s = ⟨s.current + 1, s.playing⟩)
    ∧ (N ≤ s.current + 1 → advanceClock N s = ⟨0, false⟩) := by
  constructor
  · intro h
    unfold advanceClock
    rw [if_neg (by omega)]
  · intro h
    unfold advanceClock
    rw [if_pos (by omega)]

/-- Claim C7 witness: a mid-range step advances index 1 to index 2 and
keeps playing. -/
theorem claim_C7_witness : advanceClock 5 ⟨1, true⟩ = ⟨2, true⟩ := by
  have h := (claim_C7_amended 5 ⟨1, true⟩).1 (by norm_num)
  simpa using h

/-- Claim C8: the render-frame conversion maps (x, y, z) to (x, z, -y),
and the spec-modelled reverse conversion is its exact inverse, so the
round trip is the identity on every vector. -/
theorem claim_C8 :
    (∀ v : Vec3, toRenderFrame v = ⟨v.x, v.z, -v.y⟩)
    ∧ (∀ v : Vec3, fromRenderFrame (toRenderFrame v) = v) := by
  refine ⟨fun v => rfl, fun v => ?_⟩
  apply Vec3.ext_iff_mk <;> simp [toRenderFrame, fromRenderFrame]

/-- Claim C9, counterexample.  The claim states the energy computation
fails with DegenerateDistance for r at most 0.  The source computes the
energy with no check on r: at r = -1 it returns the numeric value
1/800 + MU_SUN instead of an error. -/
theorem claim_C9_counterexample :
    ((-1 : ℝ) ≤ 0)
    ∧ energyResult (1 / 20) 0 0 (-1) = Except.ok (1 / 800 + MU_SUN)
    ∧ energyResult (1 / 20) 0 0 (-1) ≠ Except.error EnergyError.degenerateDistance := by
  have hval : specificEnergy (1 / 20 : ℝ) 0 0 (-1) = 1 / 800 + MU_SUN := by
    unfold specificEnergy velocityMag
    rw [Real.sq_sqrt (by positivity)]
    ring
  refine ⟨by norm_num, ?_, ?_⟩
  · unfold energyResult
    rw [hval]
  · unfold energyResult
    intro h
    exact Except.noConfusion h

/-- Claim C9, amended.  The energy computation performs no degenerate
distance check: it agrees with the spec-modelled fallible contract for
positive r, but for r at most 0 it still returns a numeric value (the
formula evaluated at that r) where the contract requires the
DegenerateDistance error. -/
theorem claim_C9_amended (vx vy vz r : ℝ) :
    (0 < r → energyResult vx vy vz r = energyResultSpec vx vy vz r)
    ∧ (r ≤ 0 →
        energyResult vx vy vz r ≠ energyResultSpec vx vy vz r
        ∧ energyResult vx vy vz r = Except.ok (specificEnergy vx vy vz r)) := by
  constructor
  · intro h
    unfold energyResult energyResultSpec
    rw [if_neg (by linarith)]
  · intro h
    refine ⟨?_, rfl⟩
    unfold energyResult energyResultSpec
    rw [if_pos h]
    intro hc
    exact Except.noConfusion hc

/-- Claim C9 witness: at r = 1 the computation agrees with the
spec-modelled contract. -/
theorem claim_C9_witness : energyResult 0 0 0 1 = energyResultSpec 0 0 0 1 :=
  (claim_C9_amended 0 0 0 1).1 one_pos

/- ===== Helper lemmas for the Kepler residual bounds ===== -/

theorem abs_sin_sub_sin_le_abs (a b : ℝ) : |Real.sin a - Real.sin b| ≤ |a - b| := by
  rw [Real.sin_sub_sin]
  calc |2 * Real.sin ((a - b) / 2) * Real.cos ((a + b) / 2)|
      = 2 * |Real.sin ((a - b) / 2)| * |Real.cos ((a + b) / 2)| := by
        rw [abs_mul, abs_mul]
        norm_num
    _ ≤ 2 * |(a - b) / 2| * 1 := by
        apply mul_le_mul
        · exact mul_le_mul_of_nonneg_left Real.abs_sin_le_abs (by norm_num)
        · exact Real.abs_cos_le_one _
        · positivity
        · positivity
    _ = |a - b| := by
        rw [abs_div]
        norm_num
        ring

theorem keplerStepBounds (E lo hi lo2 hi2 : ℝ)
    (hlo : lo ≤ E) (hhi : E ≤ hi) (hpos : 0 < lo) (hle1 : hi ≤ 1)
    (h1 : lo2 ≤ 1 / 50 + 99 / 100 * (lo - hi ^ 3 / 4))
    (h2 : 1 / 50 + 99 / 100 * hi ≤ hi2) :
    lo2 ≤ 1 / 50 + 99 / 100 * Real.sin E ∧ 1 / 50 + 99 / 100 * Real.sin E ≤ hi2 := by
  have hEpos : 0 < E := lt_of_lt_of_le hpos hlo
  have hE1 : E ≤ 1 := le_trans hhi hle1
  have hsu : Real.sin E ≤ hi := le_trans (le_of_lt (Real.sin_lt hEpos)) hhi
  have hcube : E ^ 3 ≤ hi ^ 3 := pow_le_pow_left₀ (le_of_lt hEpos) hhi 3
  have hsl : lo - hi ^ 3 / 4 ≤ Real.sin E := by
    have h := Real.sin_gt_sub_cube hEpos hE1
    linarith
  constructor
  · linarith
  · linarith

/-- Claim C4, counterexample.  The claim states the 10-iteration residual
is below 1e-6 for every eccentricity up to 0.99 and every mean anomaly in
[0, 2 pi).  At eccentricity 0.99 and mean anomaly 0.02 radians the
iteration is still far from its fixed point after 10 steps: certified
interval bounds on the iterates give a residual above 0.0104, five orders
of magnitude over the claimed tolerance. -/
theorem claim_C4_counterexample :
    (0 ≤ (99 / 100 : ℝ) ∧ (99 / 100 : ℝ) ≤ 99 / 100
      ∧ 0 ≤ (1 / 50 : ℝ) ∧ (1 / 50 : ℝ) < 2 * Real.pi)
    ∧ ¬ |1 / 50 - (solveKeplerE (99 / 100) (1 / 50)
          - 99 / 100 * Real.sin (solveKeplerE (99 / 100) (1 / 50)))| < 1e-6 := by
  have hstep : ∀ n : Nat, keplerIter (99 / 100) (1 / 50) (n + 1)
      = 1 / 50 + 99 / 100 * Real.sin (keplerIter (99 / 100) (1 / 50) n) :=
    fun n => rfl
  have b0 : (1 / 50 : ℝ) ≤ keplerIter (99 / 100) (1 / 50) 0 ∧ keplerIter (99 / 100) (1 / 50) 0 ≤ 1 / 50 := by
    constructor <;> simp [keplerIter]
  have b1 : (19899 / 500000 : ℝ) ≤ keplerIter (99 / 100) (1 / 50) 1 ∧ keplerIter (99 / 100) (1 / 50) 1 ≤ 199 / 5000 := by
    have h := keplerStepBounds (keplerIter (99 / 100) (1 / 50) 0)
      (1 / 50) (1 / 50) (19899 / 500000) (199 / 5000)
      b0.1 b0.2 (by norm_num) (by norm_num) (by norm_num) (by norm_num)
    rw [← hstep 0] at h
    exact h
  have b2 : (7423 / 125000 : ℝ) ≤ keplerIter (99 / 100) (1 / 50) 2 ∧ keplerIter (99 / 100) (1 / 50) 2 ≤ 29701 / 500000 := by
    have h := keplerStepBounds (keplerIter (99 / 100) (1 / 50) 1)
      (19899 / 500000) (199 / 5000) (7423 / 125000) (29701 / 500000)
      b1.1 b1.2 (by norm_num) (by norm_num) (by norm_num) (by norm_num)
    rw [← hstep 1] at h
    exact h
  have b3 : (39369 / 500000 : ℝ) ≤ keplerIter (99 / 100) (1 / 50) 3 ∧ keplerIter (99 / 100) (1 / 50) 3 ≤ 9851 / 125000 := by
    have h := keplerStepBounds (keplerIter (99 / 100) (1 / 50) 2)
      (7423 / 125000) (29701 / 500000) (39369 / 500000) (9851 / 125000)
      b2.1 b2.2 (by norm_num) (by norm_num) (by norm_num) (by norm_num)
    rw [← hstep 2] at h
    exact h
  have b4 : (97829 / 1000000 : ℝ) ≤ keplerIter (99 / 100) (1 / 50) 4 ∧ keplerIter (99 / 100) (1 / 50) 4 ≤ 4901 / 50000 := by
    have h := keplerStepBounds (keplerIter (99 / 100) (1 / 50) 3)
      (39369 / 500000) (9851 / 125000) (97829 / 1000000) (4901 / 50000)
      b3.1 b3.2 (by norm_num) (by norm_num) (by norm_num) (by norm_num)
    rw [← hstep 3] at h
    exact h
  have b5 : (116617 / 1000000 : ℝ) ≤ keplerIter (99 / 100) (1 / 50) 5 ∧ keplerIter (99 / 100) (1 / 50) 5 ≤ 1463 / 12500 := by
    have h := keplerStepBounds (keplerIter (99 / 100) (1 / 50) 4)
      (97829 / 1000000) (4901 / 50000) (116617 / 1000000) (1463 / 12500)
      b4.1 b4.2 (by norm_num) (by norm_num) (by norm_num) (by norm_num)
    rw [← hstep 4] at h
    exact h
  have b6 : (67527 / 500000 : ℝ) ≤ keplerIter (99 / 100) (1 / 50) 6 ∧ keplerIter (99 / 100) (1 / 50) 6 ≤ 13587 / 100000 := by
    have h := keplerStepBounds (keplerIter (99 / 100) (1 / 50) 5)
      (116617 / 1000000) (1463 / 12500) (67527 / 500000) (13587 / 100000)
      b5.1 b5.2 (by norm_num) (by norm_num) (by norm_num) (by norm_num)
    rw [← hstep 5] at h
    exact h
  have b7 : (76541 / 500000 : ℝ) ≤ keplerIter (99 / 100) (1 / 50) 7 ∧ keplerIter (99 / 100) (1 / 50) 7 ≤ 9657 / 62500 := by
    have h := keplerStepBounds (keplerIter (99 / 100) (1 / 50) 6)
      (67527 / 500000) (13587 / 100000) (76541 / 500000) (9657 / 62500)
      b6.1 b6.2 (by norm_num) (by norm_num) (by norm_num) (by norm_num)
    rw [← hstep 6] at h
    exact h
  have b8 : (85319 / 500000 : ℝ) ≤ keplerIter (99 / 100) (1 / 50) 8 ∧ keplerIter (99 / 100) (1 / 50) 8 ≤ 172967 / 1000000 := by
    have h := keplerStepBounds (keplerIter (99 / 100) (1 / 50) 7)
      (76541 / 500000) (9657 / 62500) (85319 / 500000) (172967 / 1000000)
      b7.1 b7.2 (by norm_num) (by norm_num) (by norm_num) (by norm_num)
    rw [← hstep 7] at h
    exact h
  have b9 : (3753 / 20000 : ℝ) ≤ keplerIter (99 / 100) (1 / 50) 9 ∧ keplerIter (99 / 100) (1 / 50) 9 ≤ 95619 / 500000 := by
    have h := keplerStepBounds (keplerIter (99 / 100) (1 / 50) 8)
      (85319 / 500000) (172967 / 1000000) (3753 / 20000) (95619 / 500000)
      b8.1 b8.2 (by norm_num) (by norm_num) (by norm_num) (by norm_num)
    rw [← hstep 8] at h
    exact h
  have b10 : (102021 / 500000 : ℝ) ≤ keplerIter (99 / 100) (1 / 50) 10 ∧ keplerIter (99 / 100) (1 / 50) 10 ≤ 104663 / 500000 := by
    have h := keplerStepBounds (keplerIter (99 / 100) (1 / 50) 9)
      (3753 / 20000) (95619 / 500000) (102021 / 500000) (104663 / 500000)
      b9.1 b9.2 (by norm_num) (by norm_num) (by norm_num) (by norm_num)
    rw [← hstep 9] at h
    exact h
  have hsin10 : (102021 / 500000 : ℝ) - (104663 / 500000) ^ 3 / 4
      ≤ Real.sin (keplerIter (99 / 100) (1 / 50) 10) := by
    have h := Real.sin_gt_sub_cube (show (0 : ℝ) < keplerIter (99 / 100) (1 / 50) 10 by
      linarith [b10.1]) (by linarith [b10.2])
    have hcube : keplerIter (99 / 100) (1 / 50) 10 ^ 3 ≤ (104663 / 500000 : ℝ) ^ 3 :=
      pow_le_pow_left₀ (by linarith [b10.1]) b10.2 3
    linarith [b10.1]
  have hsin9 : Real.sin (keplerIter (99 / 100) (1 / 50) 9) ≤ 95619 / 500000 :=
    le_trans (le_of_lt (Real.sin_lt (by linarith [b9.1]))) b9.2
  have hres : (1 / 50 : ℝ) - (keplerIter (99 / 100) (1 / 50) 10
        - 99 / 100 * Real.sin (keplerIter (99 / 100) (1 / 50) 10))
      = 99 / 100 * (Real.sin (keplerIter (99 / 100) (1 / 50) 10)
        - Real.sin (keplerIter (99 / 100) (1 / 50) 9)) := by
    have h9 : keplerIter (99 / 100) (1 / 50) 10
        = 1 / 50 + 99 / 100 * Real.sin (keplerIter (99 / 100) (1 / 50) 9) := hstep 9
    rw [h9]
    ring
  have hgap : (1 / 1000000 : ℝ) < 99 / 100 * (Real.sin (keplerIter (99 / 100) (1 / 50) 10)
      - Real.sin (keplerIter (99 / 100) (1 / 50) 9)) := by
    have hnum : (1 / 1000000 : ℝ)
        < 99 / 100 * ((102021 / 500000 - (104663 / 500000) ^ 3 / 4) - 95619 / 500000) := by
      norm_num
    linarith
  have hE10 : solveKeplerE (99 / 100) (1 / 50) = keplerIter (99 / 100) (1 / 50) 10 := rfl
  refine ⟨⟨by norm_num, le_refl _, by norm_num, ?_⟩, ?_⟩
  · nlinarith [Real.pi_gt_d6]
  · rw [not_lt, hE10, hres]
    calc (1e-6 : ℝ) = 1 / 1000000 := by norm_num
      _ ≤ 99 / 100 * (Real.sin (keplerIter (99 / 100) (1 / 50) 10)
          - Real.sin (keplerIter (99 / 100) (1 / 50) 9)) := le_of_lt hgap
      _ ≤ |99 / 100 * (Real.sin (keplerIter (99 / 100) (1 / 50) 10)
          - Real.sin (keplerIter (99 / 100) (1 / 50) 9))| := le_abs_self _

/-- Claim C4, amended.  For eccentricity at most 0.28 and every mean
anomaly in [0, 2 pi), the 10-iteration Kepler solver residual is below
1e-6: the fixed-point map contracts with factor e per step, so the
residual is at most e to the 11th power, and 0.28 to the 11th power is
below 1e-6.  (The counterexample shows the bound fails well before the
claimed range end 0.99.) -/
theorem claim_C4_amended (e M : ℝ) (he0 : 0 ≤ e) (he : e ≤ 7 / 25)
    (hM0 : 0 ≤ M) (hM : M < 2 * Real.pi) :
    |M - (solveKeplerE e M - e * Real.sin (solveKeplerE e M))| < 1e-6 := by
  have hdiff : ∀ k : Nat, |keplerIter e M (k + 1) - keplerIter e M k| ≤ e ^ (k + 1) := by
    intro k
    induction k with
    | zero =>
      show |M + e * Real.sin M - M| ≤ e ^ 1
      rw [show M + e * Real.sin M - M = e * Real.sin M by ring, abs_mul,
        abs_of_nonneg he0, pow_one]
      calc e * |Real.sin M| ≤ e * 1 :=
            mul_le_mul_of_nonneg_left (Real.abs_sin_le_one M) he0
        _ = e := mul_one e
    | succ k ih =>
      have hsh : keplerIter e M (k + 1 + 1) - keplerIter e M (k + 1)
          = e * (Real.sin (keplerIter e M (k + 1)) - Real.sin (keplerIter e M k)) := by
        show keplerStep e M (keplerIter e M (k + 1))
            - keplerStep e M (keplerIter e M k) = _
        unfold keplerStep
        ring
      rw [hsh, abs_mul, abs_of_nonneg he0]
      calc e * |Real.sin (keplerIter e M (k + 1)) - Real.sin (keplerIter e M k)|
          ≤ e * |keplerIter e M (k + 1) - keplerIter e M k| :=
            mul_le_mul_of_nonneg_left (abs_sin_sub_sin_le_abs _ _) he0
        _ ≤ e * e ^ (k + 1) := mul_le_mul_of_nonneg_left ih he0
        _ = e ^ (k + 1 + 1) := by ring
  have h10 : keplerIter e M 10 = M + e * Real.sin (keplerIter e M 9) := rfl
  have hres : M - (solveKeplerE e M - e * Real.sin (solveKeplerE e M))
      = e * (Real.sin (keplerIter e M 10) - Real.sin (keplerIter e M 9)) := by
    show M - (keplerIter e M 10 - e * Real.sin (keplerIter e M 10)) = _
    rw [h10]
    ring
  rw [hres, abs_mul, abs_of_nonneg he0]
  have hd9 : |keplerIter e M 10 - keplerIter e M 9| ≤ e ^ 10 := hdiff 9
  calc e * |Real.sin (keplerIter e M 10) - Real.sin (keplerIter e M 9)|
      ≤ e * |keplerIter e M 10 - keplerIter e M 9| :=
        mul_le_mul_of_nonneg_left (abs_sin_sub_sin_le_abs _ _) he0
    _ ≤ e * e ^ 10 := mul_le_mul_of_nonneg_left hd9 he0
    _ = e ^ 11 := by ring
    _ ≤ (7 / 25) ^ 11 := pow_le_pow_left₀ he0 he 11
    _ < 1e-6 := by norm_num

/-- Claim C4 witness: at eccentricity 0 and mean anomaly 0 the amended
residual bound holds. -/
theorem claim_C4_witness :
    |0 - (solveKeplerE 0 0 - 0 * Real.sin (solveKeplerE 0 0))| < 1e-6 :=
  claim_C4_amended 0 0 le_rfl (by norm_num) le_rfl (by positivity)

end ISig
